import Mathlib

/-!
Verification of the ground_control message protocol engine
(src/messages.rs): wire codec, framing, and the send/receive
acknowledgement discipline, shallowly embedded in Lean.

Machine integers are modelled as Nat (f32 fields by their 32-bit
patterns, i16 as Int with two's-complement encoding); Rust strings are
modelled by their character-code lists; a Rust panic is modelled as the
Option value none.
-/

namespace GroundControl

/-- Constant ACK_TIMEOUT from messages.rs: millis to wait for an ack message. -/
def ACK_TIMEOUT : Nat := 30000

/-- Constant MSG_DELAY: millis to wait between Rx and Tx. -/
def MSG_DELAY : Nat := 250

/-- Constant LISTEN_DELAY: millis between checks of the receive buffer. -/
def LISTEN_DELAY : Nat := 100

/-- Constant USE_ENCRYPTION. -/
def USE_ENCRYPTION : Bool := true

/-- Message id for TelemetryMessage. -/
def MESSAGE_TELEMETRY : Nat := 0

/-- Message id for TelemetryAck. -/
def MESSAGE_TELEMETRY_ACK : Nat := 1

/-- Message id for CommandReady. -/
def MESSAGE_COMMAND_READY : Nat := 2

/-- Message id for CommandMessage. -/
def MESSAGE_COMMAND : Nat := 3

/-- Message id for CommandAck. -/
def MESSAGE_COMMAND_ACK : Nat := 4

/-- Timestamp carried by every message (hour, minute, second; u8 fields as Nat). -/
structure RoverTimestamp where
  hour : Nat
  minute : Nat
  second : Nat
deriving DecidableEq

/-- GPS and compass sample carried by telemetry (f32 fields modelled by their
32-bit patterns). -/
structure RoverLocData where
  gps_lat : Nat
  gps_long : Nat
  gps_alt : Nat
  gps_speed : Nat
  gps_sats : Nat
  mag_hdg : Nat
deriving DecidableEq

/-- The five message kinds of the protocol. -/
inductive RoverMessage where
  | TelemetryMessage (timestamp : RoverTimestamp) (location : RoverLocData)
      (signal_strength : Int) (free_memory : Nat) (status : List Nat)
  | TelemetryAck (timestamp : RoverTimestamp) (ack : Bool) (command_waiting : Bool)
  | CommandReady (timestamp : RoverTimestamp) (ready : Bool)
  | CommandMessage (timestamp : RoverTimestamp) (sequence_complete : Bool) (command : List Nat)
  | CommandAck (timestamp : RoverTimestamp) (ack : Bool)
deriving DecidableEq

/-- Little-endian bytes of a 16-bit value (to_le_bytes on u16). -/
def le16 (v : Nat) : List Nat := [v % 256, v / 256 % 256]

/-- Little-endian bytes of a 32-bit value (to_le_bytes on an f32 bit pattern). -/
def le32 (v : Nat) : List Nat :=
  [v % 256, v / 256 % 256, v / 65536 % 256, v / 16777216 % 256]

/-- Value of two little-endian bytes (from_le_bytes on u16). -/
def dec16 (b0 b1 : Nat) : Nat := b0 + 256 * b1

/-- Value of four little-endian bytes (from_le_bytes on an f32 bit pattern). -/
def dec32 (b0 b1 b2 b3 : Nat) : Nat := b0 + 256 * b1 + 65536 * b2 + 16777216 * b3

/-- RoverTimestamp::serialize: pushes hour, minute, second. -/
def RoverTimestamp.serialize (ts : RoverTimestamp) : List Nat :=
  [ts.hour, ts.minute, ts.second]

/-- RoverTimestamp::deserialize: reads the first three bytes of its slice
(a shorter slice is an index panic, modelled as none). -/
def RoverTimestamp.deserialize (buf : List Nat) : Option RoverTimestamp :=
  match buf with
  | h :: m :: s :: _ => some ⟨h, m, s⟩
  | _ => none

/-- RoverLocData::serialize: four 32-bit LE floats, the satellite byte,
then the 16-bit LE heading. -/
def RoverLocData.serialize (l : RoverLocData) : List Nat :=
  le32 l.gps_lat ++ le32 l.gps_long ++ le32 l.gps_alt ++ le32 l.gps_speed ++
    [l.gps_sats] ++ le16 l.mag_hdg

/-- RoverLocData::deserialize: reads the 19-byte layout at fixed offsets 0..18
of its slice (a shorter slice is an index panic, modelled as none). -/
def RoverLocData.deserialize (buf : List Nat) : Option RoverLocData :=
  match buf with
  | b0 :: b1 :: b2 :: b3 :: b4 :: b5 :: b6 :: b7 :: b8 :: b9 :: b10 :: b11 ::
      b12 :: b13 :: b14 :: b15 :: b16 :: b17 :: b18 :: _ =>
    some (RoverLocData.mk (dec32 b0 b1 b2 b3) (dec32 b4 b5 b6 b7) (dec32 b8 b9 b10 b11)
      (dec32 b12 b13 b14 b15) b16 (dec16 b17 b18))
  | _ => none

/-- UTF-8 bytes of one scalar value (String::as_bytes acts per character). -/
def utf8Bytes (c : Nat) : List Nat :=
  if c < 128 then [c]
  else if c < 2048 then [192 + c / 64, 128 + c % 64]
  else if c < 65536 then [224 + c / 4096, 128 + c / 64 % 64, 128 + c % 64]
  else [240 + c / 262144, 128 + c / 4096 % 64, 128 + c / 64 % 64, 128 + c % 64]

/-- RoverMessage::serialize_string: pushes the string bytes then a NUL. -/
def RoverMessage.serialize_string (s : List Nat) : List Nat :=
  (s.flatMap utf8Bytes) ++ [0]

/-- Validity test of char::from_u32 (Unicode scalar values only). -/
def charFromU32 (c : Nat) : Option Nat :=
  if c < 55296 ∨ (57344 ≤ c ∧ c ≤ 1114111) then some c else none

/-- RoverMessage::deserialize_string: appends bytes as characters until a NUL
or the end of the slice; an invalid character is a panic (none). -/
def RoverMessage.deserialize_string (s : List Nat) : List Nat → Option (List Nat)
  | [] => some s
  | b :: rest =>
    if b = 0 then some s
    else
      match charFromU32 b with
      | none => none
      | some c => RoverMessage.deserialize_string (s ++ [c]) rest

/-- RoverMessage::serialize_bool. -/
def RoverMessage.serialize_bool (b : Bool) : List Nat := if b then [1] else [0]

/-- RoverMessage::deserialize_bool: byte greater than zero. -/
def RoverMessage.deserialize_bool (byte : Nat) : Bool := decide (byte > 0)

/-- RoverMessage::serialize_u16. -/
def RoverMessage.serialize_u16 (i : Nat) : List Nat := le16 i

/-- RoverMessage::deserialize_u16. -/
def RoverMessage.deserialize_u16 (buf : List Nat) : Option Nat :=
  match buf with
  | b0 :: b1 :: _ => some (dec16 b0 b1)
  | _ => none

/-- RoverMessage::serialize_i16 (two's-complement little-endian). -/
def RoverMessage.serialize_i16 (i : Int) : List Nat := le16 ((i % 65536).toNat)

/-- RoverMessage::deserialize_i16. -/
def RoverMessage.deserialize_i16 (buf : List Nat) : Option Int :=
  match buf with
  | b0 :: b1 :: _ =>
    some (if dec16 b0 b1 < 32768 then (dec16 b0 b1 : Int) else (dec16 b0 b1 : Int) - 65536)
  | _ => none

/-- RoverMessage::get_message_id. -/
def RoverMessage.get_message_id : RoverMessage → Nat
  | .TelemetryMessage _ _ _ _ _ => MESSAGE_TELEMETRY
  | .TelemetryAck _ _ _ => MESSAGE_TELEMETRY_ACK
  | .CommandReady _ _ => MESSAGE_COMMAND_READY
  | .CommandMessage _ _ _ => MESSAGE_COMMAND
  | .CommandAck _ _ => MESSAGE_COMMAND_ACK

/-- RoverMessage::get_message_type. -/
def getMessageType (id : Nat) : String :=
  if id = MESSAGE_TELEMETRY then "MESSAGE_TELEMETRY"
  else if id = MESSAGE_TELEMETRY_ACK then "MESSAGE_TELEMETRY_ACK"
  else if id = MESSAGE_COMMAND_READY then "MESSAGE_COMMAND_READY"
  else if id = MESSAGE_COMMAND then "MESSAGE_COMMAND"
  else if id = MESSAGE_COMMAND_ACK then "MESSAGE_COMMAND_ACK"
  else "MESSAGE_UNKNOWN"

/-- RoverMessage::serialize: routing header, kind tag, kind-specific fields,
then the length byte (the frame length, length byte included, cast to u8)
inserted at the front. -/
def RoverMessage.serialize (m : RoverMessage) : List Nat :=
  let body :=
    match m with
    | .TelemetryMessage timestamp location signal_strength free_memory status =>
        m.get_message_id :: (timestamp.serialize ++ location.serialize ++
          RoverMessage.serialize_i16 signal_strength ++
          RoverMessage.serialize_u16 free_memory ++
          RoverMessage.serialize_string status)
    | .TelemetryAck timestamp ack command_waiting =>
        m.get_message_id :: (timestamp.serialize ++ RoverMessage.serialize_bool ack ++
          RoverMessage.serialize_bool command_waiting)
    | .CommandReady timestamp ready =>
        m.get_message_id :: (timestamp.serialize ++ RoverMessage.serialize_bool ready)
    | .CommandMessage timestamp sequence_complete command =>
        m.get_message_id :: (timestamp.serialize ++
          RoverMessage.serialize_bool sequence_complete ++
          RoverMessage.serialize_string command)
    | .CommandAck timestamp ack =>
        m.get_message_id :: (timestamp.serialize ++ RoverMessage.serialize_bool ack)
  let buf := 255 :: 255 :: 0 :: 0 :: body
  ((buf.length + 1) % 256) :: buf

/-- Errors reported by RoverMessage::deserialize; the wrong-kind error carries
the two type names exactly as the Rust format string does. -/
inductive DeError where
  | wrongKind (expected actual : String)
deriving DecidableEq

/-- Rust range slicing buf[a..b] (out of range is a panic, i.e. none). -/
def sliceRange (buf : List Nat) (a b : Nat) : Option (List Nat) :=
  if a ≤ b ∧ b ≤ buf.length then some ((buf.drop a).take (b - a)) else none

/-- Rust open slicing buf[a..]. -/
def sliceFrom (buf : List Nat) (a : Nat) : Option (List Nat) :=
  if a ≤ buf.length then some (buf.drop a) else none

/-- RoverMessage::deserialize: checks the kind tag at byte 5 against the
shell's own kind, then fills the fields at the fixed offsets; none models a
panic.  The updated message is returned together with the possible error;
on the wrong-kind error the shell is returned unchanged. -/
def RoverMessage.deserialize (self : RoverMessage) (buf : List Nat) :
    Option (Option DeError × RoverMessage) :=
  match self with
  | .TelemetryMessage _ _ _ _ status => do
    let b5 ← buf.get? 5
    if b5 ≠ MESSAGE_TELEMETRY then
      pure (some (.wrongKind (getMessageType MESSAGE_TELEMETRY) (getMessageType b5)), self)
    else do
      let s1 ← sliceRange buf 6 9
      let timestamp ← RoverTimestamp.deserialize s1
      let s2 ← sliceRange buf 9 28
      let location ← RoverLocData.deserialize s2
      let s3 ← sliceRange buf 28 30
      let signal_strength ← RoverMessage.deserialize_i16 s3
      let s4 ← sliceRange buf 30 32
      let free_memory ← RoverMessage.deserialize_u16 s4
      let s5 ← sliceFrom buf 32
      let status1 ← RoverMessage.deserialize_string status s5
      pure (none, .TelemetryMessage timestamp location signal_strength free_memory status1)
  | .TelemetryAck _ _ _ => do
    let b5 ← buf.get? 5
    if b5 ≠ MESSAGE_TELEMETRY_ACK then
      pure (some (.wrongKind (getMessageType MESSAGE_TELEMETRY_ACK) (getMessageType b5)), self)
    else do
      let s1 ← sliceRange buf 6 9
      let timestamp ← RoverTimestamp.deserialize s1
      let b9 ← buf.get? 9
      let b10 ← buf.get? 10
      pure (none, .TelemetryAck timestamp (RoverMessage.deserialize_bool b9)
        (RoverMessage.deserialize_bool b10))
  | .CommandReady _ _ => do
    let b5 ← buf.get? 5
    if b5 ≠ MESSAGE_COMMAND_READY then
      pure (some (.wrongKind (getMessageType MESSAGE_COMMAND_READY) (getMessageType b5)), self)
    else do
      let s1 ← sliceRange buf 6 9
      let timestamp ← RoverTimestamp.deserialize s1
      let b9 ← buf.get? 9
      pure (none, .CommandReady timestamp (RoverMessage.deserialize_bool b9))
  | .CommandMessage _ _ command => do
    let b5 ← buf.get? 5
    if b5 ≠ MESSAGE_COMMAND then
      pure (some (.wrongKind (getMessageType MESSAGE_COMMAND) (getMessageType b5)), self)
    else do
      let s1 ← sliceRange buf 6 9
      let timestamp ← RoverTimestamp.deserialize s1
      let b9 ← buf.get? 9
      let s29 ← sliceFrom buf 29
      let command1 ← RoverMessage.deserialize_string command s29
      pure (none, .CommandMessage timestamp (RoverMessage.deserialize_bool b9) command1)
  | .CommandAck _ _ => do
    let b5 ← buf.get? 5
    if b5 ≠ MESSAGE_COMMAND_ACK then
      pure (some (.wrongKind (getMessageType MESSAGE_COMMAND_ACK) (getMessageType b5)), self)
    else do
      let s1 ← sliceRange buf 6 9
      let timestamp ← RoverTimestamp.deserialize s1
      let b9 ← buf.get? 9
      pure (none, .CommandAck timestamp (RoverMessage.deserialize_bool b9))

/-- A frame as it sits in the zero-initialised 64-byte receive buffer. -/
def pad64 (f : List Nat) : List Nat := f ++ List.replicate (64 - f.length) 0

/-- Observable radio-side actions performed by send and receive. -/
inductive Action where
  | transmit (frame : List Nat)
  | sleep (ms : Nat)
  | poll
  | waitFor (tag : Nat) (timeout : Nat)
deriving DecidableEq

/-- State threaded through the transport layer: a millisecond clock, indices
of the next rfm69 recv and send calls, and the trace of actions so far. -/
structure St where
  clock : Nat
  recvCount : Nat
  sendCount : Nat
  trace : List Action
deriving DecidableEq

/-- Result of one rfm69 recv call: a filled 64-byte buffer, the library's
internal timeout, or any other link error. -/
inductive LinkRecvResult where
  | data (buf : List Nat)
  | timeout
  | linkErr

/-- The environment: behaviour of the radio link (indexed by call number),
the wall clock (duration of each recv call; Default timestamps), and the
USE_ENCRYPTION configuration flag. -/
structure Env where
  recvResult : Nat → LinkRecvResult
  recvDur : Nat → Nat
  sendOk : Nat → Bool
  defaultTs : RoverTimestamp
  useEncryption : Bool

/-- Outcome of the recv polling loop inside RoverMessage::receive. -/
inductive RecvLoopResult where
  | gotData (buf : List Nat)
  | timedOut
  | linkError
  | outOfFuel
deriving DecidableEq

/-- Errors returned by RoverMessage::send and RoverMessage::receive. -/
inductive ProtoError where
  | messageTooLong
  | linkSendError
  | linkRecvError
  | receiveTimedOut
  | deserializeError (e : DeError)
deriving DecidableEq

/-- Overall outcome of a send or receive call; panicked models a Rust panic
and outOfFuel is unreachable for adequate fuel. -/
inductive Outcome where
  | ok
  | err (e : ProtoError)
  | panicked
  | outOfFuel
deriving DecidableEq

/-- thread::sleep: advances the clock and records the action. -/
def sleepSt (st : St) (ms : Nat) : St :=
  { st with clock := st.clock + ms, trace := st.trace ++ [.sleep ms] }

/-- The polling loop of RoverMessage::receive: poll rfm.recv; on data the loop
completes (after the deadline check and, if the deadline has not elapsed, the
trailing LISTEN_DELAY sleep); on the library timeout sleep LISTEN_DELAY, check
the overall deadline, sleep LISTEN_DELAY again at the bottom of the loop and
retry; on any other error return immediately. -/
def recvLoop (env : Env) (timeout start : Nat) : Nat → St → RecvLoopResult × St
  | 0, st => (.outOfFuel, st)
  | fuel + 1, st =>
    let idx := st.recvCount
    let st1 : St := { st with clock := st.clock + env.recvDur idx,
                              recvCount := idx + 1,
                              trace := st.trace ++ [.poll] }
    match env.recvResult idx with
    | .data buf =>
      if st1.clock - start > timeout then (.gotData buf, st1)
      else (.gotData buf, sleepSt st1 LISTEN_DELAY)
    | .timeout =>
      let st2 := sleepSt st1 LISTEN_DELAY
      if st2.clock - start > timeout then (.timedOut, st2)
      else recvLoop env timeout start fuel (sleepSt st2 LISTEN_DELAY)
    | .linkErr => (.linkError, st1)

mutual

/-- RoverMessage::send: serialize, enforce the length budget (64 bytes with
encryption on, 255 with it off), transmit, and for a CommandMessage receive
the CommandAck on the caller's behalf with timeout ACK_TIMEOUT. -/
def sendFn (env : Env) : Nat → RoverMessage → St → Outcome × St
  | 0, _, st => (.outOfFuel, st)
  | fuel + 1, m, st =>
    let maxMessageLength : Nat := if env.useEncryption then 64 else 255
    let buf := m.serialize
    if buf.length > maxMessageLength then (.err .messageTooLong, st)
    else
      let ok := env.sendOk st.sendCount
      let st1 : St := { st with sendCount := st.sendCount + 1,
                                trace := st.trace ++ [.transmit buf] }
      if ok = false then (.err .linkSendError, st1)
      else
        match m with
        | .CommandMessage _ _ _ =>
          let shell : RoverMessage := .CommandAck env.defaultTs false
          let r := receiveFn env fuel shell ACK_TIMEOUT st1
          (r.1, r.2.2)
        | _ => (.ok, st1)

/-- RoverMessage::receive: poll until data, the deadline, or a link error;
deserialize into the shell; if the decoded message is a TelemetryMessage,
sleep MSG_DELAY and send a TelemetryAck (ack true, command_waiting false),
whose failure propagates as the failure of the receive call. -/
def receiveFn (env : Env) : Nat → RoverMessage → Nat → St → Outcome × RoverMessage × St
  | 0, self, _, st => (.outOfFuel, self, st)
  | fuel + 1, self, timeout, st =>
    let st1 : St := { st with trace := st.trace ++ [.waitFor self.get_message_id timeout] }
    match recvLoop env timeout st1.clock (timeout + 1) st1 with
    | (.outOfFuel, st2) => (.outOfFuel, self, st2)
    | (.linkError, st2) => (.err .linkRecvError, self, st2)
    | (.timedOut, st2) => (.err .receiveTimedOut, self, st2)
    | (.gotData buf, st2) =>
      match self.deserialize buf with
      | none => (.panicked, self, st2)
      | some (some e, self1) => (.err (.deserializeError e), self1, st2)
      | some (none, self1) =>
        match self1 with
        | .TelemetryMessage _ _ _ _ _ =>
          let ack : RoverMessage := .TelemetryAck env.defaultTs true false
          let s := sendFn env fuel ack (sleepSt st2 MSG_DELAY)
          (s.1, self1, s.2)
        | _ => (.ok, self1, st2)

end

/-- Entry point for RoverMessage::send (fuel 2 covers the one level of
CommandMessage to CommandAck nesting). -/
def send (env : Env) (m : RoverMessage) (st : St) : Outcome × St :=
  sendFn env 2 m st

/-- Entry point for RoverMessage::receive. -/
def receive (env : Env) (self : RoverMessage) (timeout : Nat) (st : St) :
    Outcome × RoverMessage × St :=
  receiveFn env 2 self timeout st

/-- The initial transport state. -/
def st0 : St := ⟨0, 0, 0, []⟩

/-- Test for the transmit action. -/
def Action.isTransmit : Action → Bool
  | .transmit _ => true
  | _ => false

/-- Test for the receive-entry marker action. -/
def Action.isWait : Action → Bool
  | .waitFor _ _ => true
  | _ => false

/-- Modelled from the spec (section 4.1): little-endian 16-bit fixed-width
encoding, low byte first. -/
def specLE16 (v : Nat) : List Nat := [v % 256, v / 256 % 256]

/-- Modelled from the spec (section 4.1): little-endian 32-bit fixed-width
encoding, low byte first. -/
def specLE32 (v : Nat) : List Nat := [v % 256, v / 256 % 256, v / 65536 % 256, v / 16777216 % 256]

/-- Modelled from the spec (section 4.1): one-byte boolean encoding, 0 or 1. -/
def specBool (b : Bool) : List Nat := [if b then 1 else 0]

/-- Modelled from the spec (section 4.1): NUL-terminated string encoding. -/
def specString (s : List Nat) : List Nat := s.flatMap utf8Bytes ++ [0]

/-- Modelled from the spec (section 3): the three-byte timestamp encoding. -/
def specTs (ts : RoverTimestamp) : List Nat := [ts.hour, ts.minute, ts.second]

/-- Modelled from the spec (sections 3, 4.1, 6): the kind-specific fields in
declaration order, with little-endian fixed-width numerics (the i16 as
two's complement), booleans as one byte, strings NUL-terminated. -/
def specFields : RoverMessage → List Nat
  | .TelemetryMessage ts loc ss fm status =>
      specTs ts ++ specLE32 loc.gps_lat ++ specLE32 loc.gps_long ++ specLE32 loc.gps_alt ++
      specLE32 loc.gps_speed ++ [loc.gps_sats] ++ specLE16 loc.mag_hdg ++
      specLE16 ((ss % 65536).toNat) ++ specLE16 fm ++ specString status
  | .TelemetryAck ts a cw => specTs ts ++ specBool a ++ specBool cw
  | .CommandReady ts r => specTs ts ++ specBool r
  | .CommandMessage ts sc cmd => specTs ts ++ specBool sc ++ specString cmd
  | .CommandAck ts a => specTs ts ++ specBool a

/-- The CommandMessage used in the concrete scenarios: sequence_complete true,
command "STOP" (character codes 83, 84, 79, 80), a zero timestamp. -/
def mSTOP : RoverMessage := .CommandMessage ⟨0, 0, 0⟩ true [83, 84, 79, 80]

/-- An empty CommandMessage shell, as pre-allocated before a receive. -/
def shellCM : RoverMessage := .CommandMessage ⟨0, 0, 0⟩ false []

/-- A concrete telemetry message used by the witnesses. -/
def mTel : RoverMessage := .TelemetryMessage ⟨1, 2, 3⟩ ⟨10, 20, 30, 40, 7, 300⟩ (-5) 1234 [72, 73]

/-- An empty telemetry shell, as pre-allocated before a receive. -/
def shellTel : RoverMessage := .TelemetryMessage ⟨0, 0, 0⟩ ⟨0, 0, 0, 0, 0, 0⟩ 0 0 []

/-- An environment whose radio recv always reports a non-timeout link error. -/
def envLinkErr : Env := ⟨fun _ => .linkErr, fun _ => 0, fun _ => true, ⟨0, 0, 0⟩, true⟩

/-- An environment whose radio recv always reports the internal timeout,
each recv call returning instantly. -/
def envTimeout : Env := ⟨fun _ => .timeout, fun _ => 0, fun _ => true, ⟨0, 0, 0⟩, true⟩

/-- An environment whose radio recv immediately delivers the telemetry frame. -/
def envTelemetry : Env :=
  ⟨fun _ => .data (pad64 mTel.serialize), fun _ => 0, fun _ => true, ⟨0, 0, 0⟩, true⟩

/-- A telemetry message whose frame is 62 bytes long (29-character status). -/
def m62 : RoverMessage :=
  .TelemetryMessage ⟨0, 0, 0⟩ ⟨0, 0, 0, 0, 0, 0⟩ 0 0 (List.replicate 29 65)

/-- A telemetry message whose frame is exactly 64 bytes long (31-character status). -/
def m64 : RoverMessage :=
  .TelemetryMessage ⟨0, 0, 0⟩ ⟨0, 0, 0, 0, 0, 0⟩ 0 0 (List.replicate 31 65)

/-- A telemetry message whose frame exceeds every budget (100-character status). -/
def mLong : RoverMessage :=
  .TelemetryMessage ⟨0, 0, 0⟩ ⟨0, 0, 0, 0, 0, 0⟩ 0 0 (List.replicate 100 65)

/-- The transport state right after the polling loop of the witness scenario:
one poll that delivered data, the trailing LISTEN_DELAY sleep. -/
def st2w : St :=
  ⟨100, 1, 0, [Action.waitFor MESSAGE_TELEMETRY 1000, Action.poll, Action.sleep LISTEN_DELAY]⟩

/-- Claim C1 (code bug).  The round-trip property decode(encode(m), m.kind) == m fails on the
code: RoverMessage::serialize writes the command string of a CommandMessage at
byte offset 10 (after the length byte, the 4-byte routing header, the kind
tag, the 3-byte timestamp and the bool), but RoverMessage::deserialize reads
it back from byte offset 29, so the CommandMessage with command "STOP" decodes
with an empty command and the round trip yields a different message. -/
theorem roundtrip_commandMessage_stop_fails :
    RoverMessage.deserialize shellCM (pad64 mSTOP.serialize) =
      some (none, .CommandMessage ⟨0, 0, 0⟩ true []) ∧
    RoverMessage.CommandMessage ⟨0, 0, 0⟩ true [] ≠ mSTOP := by
  constructor
  · decide
  · decide

/-- Claim C2 (code bug).  Encoding CommandMessage {sequence_complete: true, command: "STOP"}
gives the claimed 15-byte frame with the length byte 15, but decoding those 15
bytes from the 64-byte receive buffer reproduces only the sequence_complete
flag: the command comes back empty, not "STOP", because the decoder reads the
string from byte 29 instead of byte 10. -/
theorem commandMessage_stop_frame15_decode :
    (mSTOP.serialize).length = 15 ∧
    mSTOP.serialize =
      [15, 255, 255, 0, 0, 3, 0, 0, 0, 1, 83, 84, 79, 80, 0] ∧
    RoverMessage.deserialize shellCM (pad64 mSTOP.serialize) =
      some (none, .CommandMessage ⟨0, 0, 0⟩ true []) ∧
    ([] : List Nat) ≠ [83, 84, 79, 80] := by
  refine ⟨by decide, by decide, by decide, by decide⟩

/-- Claim C9, counterexample.  RoverLocData serializes to 19 bytes (four raw 4-byte
little-endian floats, one satellite byte, a 2-byte heading), not to the 24
bytes the claim states. -/
theorem locdata_19_not_24 :
    ((RoverLocData.mk 0 0 0 0 0 0).serialize).length = 19 ∧ (19 : Nat) ≠ 24 := by
  exact ⟨by decide, by decide⟩

/-- Claim C9, amended.  For every in-range location sample, RoverLocData::serialize
produces exactly 19 bytes, and RoverLocData::deserialize consumes exactly that
19-byte layout: appended to any suffix, the 19 serialized bytes decode back to
the original sample. -/
theorem locdata_layout_amended (l : RoverLocData)
    (hlat : l.gps_lat < 4294967296) (hlong : l.gps_long < 4294967296)
    (halt : l.gps_alt < 4294967296) (hspeed : l.gps_speed < 4294967296)
    (hsats : l.gps_sats < 256) (hhdg : l.mag_hdg < 65536) :
    (l.serialize).length = 19 ∧
    ∀ rest : List Nat, RoverLocData.deserialize (l.serialize ++ rest) = some l := by
  obtain ⟨lat, long, alt, speed, sats, hdg⟩ := l
  replace hlat : lat < 4294967296 := hlat
  replace hlong : long < 4294967296 := hlong
  replace halt : alt < 4294967296 := halt
  replace hspeed : speed < 4294967296 := hspeed
  replace hsats : sats < 256 := hsats
  replace hhdg : hdg < 65536 := hhdg
  refine ⟨rfl, ?_⟩
  intro rest
  have h : RoverLocData.deserialize
      ((RoverLocData.mk lat long alt speed sats hdg).serialize ++ rest) =
      some (RoverLocData.mk
        (dec32 (lat % 256) (lat / 256 % 256) (lat / 65536 % 256) (lat / 16777216 % 256))
        (dec32 (long % 256) (long / 256 % 256) (long / 65536 % 256) (long / 16777216 % 256))
        (dec32 (alt % 256) (alt / 256 % 256) (alt / 65536 % 256) (alt / 16777216 % 256))
        (dec32 (speed % 256) (speed / 256 % 256) (speed / 65536 % 256) (speed / 16777216 % 256))
        sats
        (dec16 (hdg % 256) (hdg / 256 % 256))) := rfl
  rw [h]
  simp only [Option.some.injEq, RoverLocData.mk.injEq, dec32, dec16]
  refine ⟨?_, ?_, ?_, ?_, trivial, ?_⟩ <;> omega

/-- Claim C9, witness at a concrete sample. -/
theorem locdata_layout_amended_witness :
    ((RoverLocData.mk 1 2 3 4 5 6).serialize).length = 19 ∧
    RoverLocData.deserialize ((RoverLocData.mk 1 2 3 4 5 6).serialize ++ [9, 9]) =
      some (RoverLocData.mk 1 2 3 4 5 6) := by
  have h := locdata_layout_amended (RoverLocData.mk 1 2 3 4 5 6)
    (by decide) (by decide) (by decide) (by decide) (by decide) (by decide)
  exact ⟨h.1, h.2 [9, 9]⟩

/-- Claim C6.  For every expected kind (the shell's kind) and every buffer whose
kind-tag byte at offset 5 differs from it, RoverMessage::deserialize fails
with the wrong-message-kind error naming the expected and the actual kind,
and returns the shell with every field unchanged. -/
theorem deserialize_wrong_kind (self : RoverMessage) (buf : List Nat) (b5 : Nat)
    (h5 : buf.get? 5 = some b5) (hne : b5 ≠ self.get_message_id) :
    self.deserialize buf =
      some (some (.wrongKind (getMessageType self.get_message_id) (getMessageType b5)),
        self) := by
  cases self <;>
  · simp only [RoverMessage.get_message_id] at hne ⊢
    simp only [RoverMessage.deserialize]
    rw [h5]
    simp only [Option.bind_eq_bind, Option.some_bind]
    rw [if_pos hne]
    rfl

/-- Claim C6, witness: a receive target expecting a CommandAck, handed a buffer
holding a Telemetry frame, reports the wrong-kind error and is unchanged. -/
theorem deserialize_wrong_kind_witness :
    RoverMessage.deserialize (.CommandAck ⟨0, 0, 0⟩ false)
        (pad64 ((RoverMessage.TelemetryMessage ⟨1, 2, 3⟩ ⟨10, 20, 30, 40, 7, 300⟩
          (-5) 1234 [72, 73]).serialize)) =
      some (some (.wrongKind "MESSAGE_COMMAND_ACK" "MESSAGE_TELEMETRY"),
        .CommandAck ⟨0, 0, 0⟩ false) := by
  have h := deserialize_wrong_kind (.CommandAck ⟨0, 0, 0⟩ false)
    (pad64 ((RoverMessage.TelemetryMessage ⟨1, 2, 3⟩ ⟨10, 20, 30, 40, 7, 300⟩
      (-5) 1234 [72, 73]).serialize)) 0 (by decide) (by decide)
  exact h

set_option maxRecDepth 4000 in
/-- Claim C7, counterexample.  The length byte is the total frame length cast to u8:
for a CommandMessage whose command is 250 characters long the frame is 261
bytes, and its first byte is 5, not the total frame length. -/
theorem length_byte_truncation :
    ((RoverMessage.CommandMessage ⟨0, 0, 0⟩ false (List.replicate 250 65)).serialize).length
        = 261 ∧
    ((RoverMessage.CommandMessage ⟨0, 0, 0⟩ false
        (List.replicate 250 65)).serialize).get? 0 = some 5 ∧
    (5 : Nat) ≠ 261 := by
  refine ⟨by decide, by decide, by decide⟩

/-- Claim C7, amended.  Every encoded frame is the length byte, the fixed routing
header 0xFF 0xFF 0x00 0x00, the kind tag (0..4 via get_message_id), then the
kind-specific fields in declaration order (little-endian fixed-width numerics,
booleans as 0/1, NUL-terminated strings); the length byte equals the total
frame length, length byte included, reduced modulo 256 (so it equals the
length exactly only for frames of at most 255 bytes). -/
theorem frame_layout_amended (m : RoverMessage) :
    m.serialize = ((6 + (specFields m).length) % 256) :: 255 :: 255 :: 0 :: 0 ::
      m.get_message_id :: specFields m ∧
    (m.serialize).length = 6 + (specFields m).length := by
  cases m <;> refine ⟨?_, ?_⟩ <;>
    simp [RoverMessage.serialize, RoverMessage.get_message_id, RoverTimestamp.serialize,
      RoverLocData.serialize, le16, le32, RoverMessage.serialize_i16,
      RoverMessage.serialize_u16, RoverMessage.serialize_string, RoverMessage.serialize_bool,
      specFields, specTs, specLE16, specLE32, specBool, specString, List.length_cons,
      List.length_append]
  all_goals try (split_ifs <;> simp)
  all_goals omega

/-- Actions appended by the polling loop are only polls and sleeps, so any
filter that drops polls and sleeps is unchanged by the loop. -/
theorem recvLoop_filter (env : Env) (T s : Nat) (p : Action → Bool)
    (hp : p Action.poll = false) (hs : ∀ ms, p (Action.sleep ms) = false) :
    ∀ (fuel : Nat) (st : St),
      ((recvLoop env T s fuel st).2.trace).filter p = st.trace.filter p := by
  intro fuel
  induction fuel with
  | zero => intro st; simp [recvLoop]
  | succ n ih =>
    intro st
    simp only [recvLoop]
    split
    · split
      · simp [List.filter_append, hp]
      · simp [sleepSt, List.filter_append, hp, hs]
    · split
      · simp [sleepSt, List.filter_append, hp, hs]
      · rw [ih]
        simp [sleepSt, List.filter_append, hp, hs]
    · simp [List.filter_append, hp]

/-- A TelemetryAck frame is always 11 bytes long. -/
theorem len_serialize_telemetryAck (t : RoverTimestamp) (a c : Bool) :
    ((RoverMessage.TelemetryAck t a c).serialize).length = 11 := by
  simp [RoverMessage.serialize, RoverTimestamp.serialize, RoverMessage.serialize_bool,
    RoverMessage.get_message_id]
  cases a <;> cases c <;> simp

/-- RoverMessage::deserialize never changes the kind of the shell it fills. -/
theorem deserialize_kind (self : RoverMessage) (buf : List Nat) (e : Option DeError)
    (m1 : RoverMessage) (h : self.deserialize buf = some (e, m1)) :
    m1.get_message_id = self.get_message_id := by
  revert h
  cases self with
  | TelemetryMessage ts loc ss fm status =>
    simp only [RoverMessage.deserialize, Option.bind_eq_bind]
    rcases buf.get? 5 with _ | b5
    · simp
    · simp only [Option.some_bind]
      split_ifs with hb
      · simp only [Option.pure_def, Option.some.injEq, Prod.mk.injEq]
        rintro ⟨-, rfl⟩
        rfl
      · simp only [Option.bind_eq_some, Option.pure_def, Option.some.injEq, Prod.mk.injEq]
        rintro ⟨_, -, _, -, _, -, _, -, _, -, _, -, _, -, _, -, _, -, _, -, -, rfl⟩
        rfl
  | TelemetryAck ts a c =>
    simp only [RoverMessage.deserialize, Option.bind_eq_bind]
    rcases buf.get? 5 with _ | b5
    · simp
    · simp only [Option.some_bind]
      split_ifs with hb
      · simp only [Option.pure_def, Option.some.injEq, Prod.mk.injEq]
        rintro ⟨-, rfl⟩
        rfl
      · simp only [Option.bind_eq_some, Option.pure_def, Option.some.injEq, Prod.mk.injEq]
        rintro ⟨_, -, _, -, _, -, _, -, -, rfl⟩
        rfl
  | CommandReady ts r =>
    simp only [RoverMessage.deserialize, Option.bind_eq_bind]
    rcases buf.get? 5 with _ | b5
    · simp
    · simp only [Option.some_bind]
      split_ifs with hb
      · simp only [Option.pure_def, Option.some.injEq, Prod.mk.injEq]
        rintro ⟨-, rfl⟩
        rfl
      · simp only [Option.bind_eq_some, Option.pure_def, Option.some.injEq, Prod.mk.injEq]
        rintro ⟨_, -, _, -, _, -, -, rfl⟩
        rfl
  | CommandMessage ts sc cmd =>
    simp only [RoverMessage.deserialize, Option.bind_eq_bind]
    rcases buf.get? 5 with _ | b5
    · simp
    · simp only [Option.some_bind]
      split_ifs with hb
      · simp only [Option.pure_def, Option.some.injEq, Prod.mk.injEq]
        rintro ⟨-, rfl⟩
        rfl
      · simp only [Option.bind_eq_some, Option.pure_def, Option.some.injEq, Prod.mk.injEq]
        rintro ⟨_, -, _, -, _, -, _, -, _, -, -, rfl⟩
        rfl
  | CommandAck ts a =>
    simp only [RoverMessage.deserialize, Option.bind_eq_bind]
    rcases buf.get? 5 with _ | b5
    · simp
    · simp only [Option.some_bind]
      split_ifs with hb
      · simp only [Option.pure_def, Option.some.injEq, Prod.mk.injEq]
        rintro ⟨-, rfl⟩
        rfl
      · simp only [Option.bind_eq_some, Option.pure_def, Option.some.injEq, Prod.mk.injEq]
        rintro ⟨_, -, _, -, _, -, -, rfl⟩
        rfl

/-- Neither a TelemetryAck send nor any receive can fail with the
message-too-long error: the length check only rejects the message being sent,
and the only message the receive path ever sends is the 11-byte TelemetryAck. -/
theorem not_tooLong (fuel : Nat) :
    (∀ (env : Env) (t : RoverTimestamp) (a c : Bool) (st : St),
      (sendFn env fuel (.TelemetryAck t a c) st).1 ≠ .err .messageTooLong) ∧
    (∀ (env : Env) (self : RoverMessage) (T : Nat) (st : St),
      (receiveFn env fuel self T st).1 ≠ .err .messageTooLong) := by
  induction fuel with
  | zero =>
    constructor <;> intros <;> simp [sendFn, receiveFn]
  | succ n ih =>
    constructor
    · intro env t a c st
      cases henc : env.useEncryption <;>
        simp [sendFn, len_serialize_telemetryAck, henc] <;>
        split <;> simp
    · intro env self T st
      simp only [receiveFn]
      split
      · simp
      · simp
      · simp
      · split
        · simp
        · simp
        · split
          all_goals first
            | exact ih.1 env env.defaultTs true false _
            | simp

/-- The polling loop only appends to the trace. -/
theorem recvLoop_mem (env : Env) (T s : Nat) :
    ∀ (fuel : Nat) (st : St) (a : Action),
      a ∈ st.trace → a ∈ (recvLoop env T s fuel st).2.trace := by
  intro fuel
  induction fuel with
  | zero => intro st a ha; simp [recvLoop, ha]
  | succ n ih =>
    intro st a ha
    simp only [recvLoop]
    split
    · split
      · simp [ha]
      · simp [sleepSt, ha]
    · split
      · simp [sleepSt, ha]
      · apply ih
        simp [sleepSt, ha]
    · simp [ha]

/-- send and receive only append to the trace. -/
theorem trace_mem (fuel : Nat) :
    (∀ (env : Env) (m : RoverMessage) (st : St) (a : Action),
      a ∈ st.trace → a ∈ (sendFn env fuel m st).2.trace) ∧
    (∀ (env : Env) (self : RoverMessage) (T : Nat) (st : St) (a : Action),
      a ∈ st.trace → a ∈ ((receiveFn env fuel self T st).2.2).trace) := by
  induction fuel with
  | zero => constructor <;> intro env m st <;> intros <;> simp_all [sendFn, receiveFn]
  | succ n ih =>
    constructor
    · intro env m st a ha
      simp only [sendFn]
      generalize (if env.useEncryption then (64 : Nat) else 255) = maxL
      split
      · simpa
      · split
        · simp [ha]
        · split
          all_goals first
            | (apply ih.2; simp [ha])
            | simp [ha]
    · intro env self T st a ha
      have ha1 : a ∈ ({ st with trace := st.trace ++
          [Action.waitFor self.get_message_id T] } : St).trace := by simp [ha]
      simp only [receiveFn]
      split
      all_goals rename_i heq
      all_goals have hmem := recvLoop_mem env T st.clock (T + 1) _ a ha1
      all_goals rw [heq] at hmem
      · exact hmem
      · exact hmem
      · exact hmem
      · split
        · exact hmem
        · exact hmem
        · split
          all_goals first
            | (apply ih.1; simp [sleepSt, hmem])
            | exact hmem

/-- Sending any kind other than CommandMessage performs no internal receive:
no waitFor marker is added to the trace. -/
theorem sendFn_waitFilter (env : Env) (fuel : Nat) (m : RoverMessage) (st : St)
    (hm : m.get_message_id ≠ MESSAGE_COMMAND) :
    ((sendFn env fuel m st).2.trace).filter Action.isWait =
      st.trace.filter Action.isWait := by
  cases fuel with
  | zero => simp [sendFn]
  | succ n =>
    simp only [sendFn]
    generalize (if env.useEncryption then (64 : Nat) else 255) = maxL
    split
    · rfl
    · split
      · simp [List.filter_append, Action.isWait]
      · split
        · simp [RoverMessage.get_message_id, MESSAGE_COMMAND] at hm
        all_goals simp [List.filter_append, Action.isWait]

/-- A receive adds exactly one waitFor marker to the trace, tagged with the
kind the shell expects and the overall timeout. -/
theorem receiveFn_waitFilter (env : Env) (fuel : Nat) (self : RoverMessage) (T : Nat)
    (st : St) :
    (((receiveFn env (fuel + 1) self T st).2.2).trace).filter Action.isWait =
      st.trace.filter Action.isWait ++ [Action.waitFor self.get_message_id T] := by
  have hbase : ((St.mk st.clock st.recvCount st.sendCount (st.trace ++
      [Action.waitFor self.get_message_id T])).trace).filter Action.isWait =
      st.trace.filter Action.isWait ++ [Action.waitFor self.get_message_id T] := by
    simp [List.filter_append, Action.isWait]
  simp only [receiveFn]
  split
  all_goals rename_i heq
  all_goals have hflt := recvLoop_filter env T st.clock Action.isWait rfl (fun _ => rfl) (T + 1) (St.mk st.clock st.recvCount st.sendCount (st.trace ++ [Action.waitFor self.get_message_id T]))
  all_goals rw [heq] at hflt
  · simp only [hflt, hbase]
  · simp only [hflt, hbase]
  · simp only [hflt, hbase]
  · split
    · simp only [hflt, hbase]
    · simp only [hflt, hbase]
    · split
      · rw [sendFn_waitFilter env fuel _ _ (by simp [RoverMessage.get_message_id,
            MESSAGE_TELEMETRY_ACK, MESSAGE_COMMAND])]
        simp only [sleepSt, List.filter_append]
        simp only [hflt, hbase]
        simp [Action.isWait]
      · simp only [hflt, hbase]

/-- One-step unfolding of the polling loop. -/
theorem recvLoop_succ (env : Env) (T start fuel : Nat) (st : St) :
    recvLoop env T start (fuel + 1) st =
      (let idx := st.recvCount
       let st1 : St := { st with clock := st.clock + env.recvDur idx,
                                 recvCount := idx + 1,
                                 trace := st.trace ++ [.poll] }
       match env.recvResult idx with
       | .data buf =>
         if st1.clock - start > T then (.gotData buf, st1)
         else (.gotData buf, sleepSt st1 LISTEN_DELAY)
       | .timeout =>
         let st2 := sleepSt st1 LISTEN_DELAY
         if st2.clock - start > T then (.timedOut, st2)
         else recvLoop env T start fuel (sleepSt st2 LISTEN_DELAY)
       | .linkErr => (.linkError, st1)) := rfl

/-- When every poll reports the internal timeout, the polling loop ends with
timedOut, strictly after the deadline, overshooting it by at most one recv
attempt plus the two per-iteration sleeps. -/
theorem recvLoop_all_timeout (env : Env) (T D : Nat)
    (htm : ∀ k, env.recvResult k = .timeout) (hd : ∀ k, env.recvDur k ≤ D) :
    ∀ (f start : Nat) (st : St),
      start ≤ st.clock →
      st.clock - start ≤ T + LISTEN_DELAY →
      T ≤ (st.clock - start) + 200 * f →
      ∃ st2, recvLoop env T start (f + 1) st = (.timedOut, st2) ∧
        T < st2.clock - start ∧ st2.clock - start ≤ T + D + 2 * LISTEN_DELAY := by
  intro f
  induction f with
  | zero =>
    intro start st h1 h2 h3
    have hdk := hd st.recvCount
    rw [recvLoop_succ]
    dsimp only
    rw [htm st.recvCount]
    dsimp only [sleepSt]
    rw [if_pos (by simp only [LISTEN_DELAY] at *; omega)]
    refine ⟨_, rfl, ?_, ?_⟩ <;> simp only [LISTEN_DELAY] at * <;> omega
  | succ n ih =>
    intro start st h1 h2 h3
    have hdk := hd st.recvCount
    rw [recvLoop_succ]
    dsimp only
    rw [htm st.recvCount]
    dsimp only [sleepSt]
    split_ifs with hc
    · refine ⟨_, rfl, ?_, ?_⟩ <;> simp only [LISTEN_DELAY] at * <;> omega
    · refine ih start _ ?_ ?_ ?_ <;> simp only [LISTEN_DELAY] at * <;> omega

/-- A poll that reports a non-timeout link error makes the loop return
immediately, with no sleep and no retry. -/
theorem recvLoop_linkErr (env : Env) (T start fuel : Nat) (st : St)
    (h : env.recvResult st.recvCount = .linkErr) :
    recvLoop env T start (fuel + 1) st =
      (.linkError, St.mk (st.clock + env.recvDur st.recvCount) (st.recvCount + 1)
        st.sendCount (st.trace ++ [Action.poll])) := by
  simp only [recvLoop]
  rw [h]

/-- An in-bounds index always reads a byte. -/
theorem get_total (l : List Nat) (i : Nat) (h : i < l.length) : ∃ b, l.get? i = some b :=
  ⟨l.get ⟨i, h⟩, List.get?_eq_get h⟩

/-- A timestamp deserializes from any slice of at least three bytes. -/
theorem ts_deser_total (l : List Nat) (h : 3 ≤ l.length) :
    ∃ t, RoverTimestamp.deserialize l = some t := by
  rcases l with _ | ⟨a, l⟩
  · simp at h
  rcases l with _ | ⟨b, l⟩
  · simp at h
  rcases l with _ | ⟨c, l⟩
  · simp at h
  exact ⟨_, rfl⟩

/-- A location sample deserializes from any slice of at least 19 bytes. -/
theorem loc_deser_total (l : List Nat) (h : 19 ≤ l.length) :
    ∃ r, RoverLocData.deserialize l = some r := by
  rcases l with _ | ⟨b0, l⟩; · simp at h
  rcases l with _ | ⟨b1, l⟩; · simp at h
  rcases l with _ | ⟨b2, l⟩; · simp at h
  rcases l with _ | ⟨b3, l⟩; · simp at h
  rcases l with _ | ⟨b4, l⟩; · simp at h
  rcases l with _ | ⟨b5, l⟩; · simp at h
  rcases l with _ | ⟨b6, l⟩; · simp at h
  rcases l with _ | ⟨b7, l⟩; · simp at h
  rcases l with _ | ⟨b8, l⟩; · simp at h
  rcases l with _ | ⟨b9, l⟩; · simp at h
  rcases l with _ | ⟨b10, l⟩; · simp at h
  rcases l with _ | ⟨b11, l⟩; · simp at h
  rcases l with _ | ⟨b12, l⟩; · simp at h
  rcases l with _ | ⟨b13, l⟩; · simp at h
  rcases l with _ | ⟨b14, l⟩; · simp at h
  rcases l with _ | ⟨b15, l⟩; · simp at h
  rcases l with _ | ⟨b16, l⟩; · simp at h
  rcases l with _ | ⟨b17, l⟩; · simp at h
  rcases l with _ | ⟨b18, l⟩; · simp at h
  exact ⟨_, rfl⟩

/-- An i16 deserializes from any slice of at least two bytes. -/
theorem i16_deser_total (l : List Nat) (h : 2 ≤ l.length) :
    ∃ r, RoverMessage.deserialize_i16 l = some r := by
  rcases l with _ | ⟨a, l⟩
  · simp at h
  rcases l with _ | ⟨b, l⟩
  · simp at h
  exact ⟨_, rfl⟩

/-- A u16 deserializes from any slice of at least two bytes. -/
theorem u16_deser_total (l : List Nat) (h : 2 ≤ l.length) :
    ∃ r, RoverMessage.deserialize_u16 l = some r := by
  rcases l with _ | ⟨a, l⟩
  · simp at h
  rcases l with _ | ⟨b, l⟩
  · simp at h
  exact ⟨_, rfl⟩

/-- String decoding succeeds whenever every byte is a valid Unicode scalar
value, in particular for every byte below 55296. -/
theorem string_deser_total (bytes : List Nat) :
    ∀ s : List Nat, (∀ b ∈ bytes, b < 55296) →
      ∃ r, RoverMessage.deserialize_string s bytes = some r := by
  induction bytes with
  | nil => intro s h; exact ⟨s, rfl⟩
  | cons b rest ih =>
    intro s h
    simp only [RoverMessage.deserialize_string]
    split_ifs with hb
    · exact ⟨s, rfl⟩
    · have hvb : charFromU32 b = some b := by
        simp only [charFromU32, if_pos (Or.inl (h b (by simp)))]
      rw [hvb]
      exact ih (s ++ [b]) (fun x hx => h x (by simp [hx]))

/-- Claim C3, counterexample.  The claim says the send-time check fails iff the
encoded frame exceeds 60 bytes with encryption enabled; but this 62-byte frame
(62 > 60) passes the check, is transmitted, and send succeeds, because the
code's budget is 64 bytes for the whole frame (equivalently 60 bytes after the
4-byte routing header). -/
theorem send_budget_claim_counterexample :
    (m62.serialize).length = 62 ∧ (60 : Nat) < 62 ∧ envLinkErr.useEncryption = true ∧
    (send envLinkErr m62 st0).1 ≠ .err .messageTooLong ∧
    (send envLinkErr m62 st0).1 = .ok ∧
    Action.transmit m62.serialize ∈ (send envLinkErr m62 st0).2.trace := by
  refine ⟨by decide, by decide, by decide, by decide, by decide, by decide⟩

/-- Claim C3, amended.  For every message and encryption setting, send fails
with the message-too-long error iff the whole encoded frame exceeds 64 bytes
with encryption enabled (255 with it disabled), i.e. 60 (resp. 251) bytes
after discounting the 4-byte routing header; the failure leaves the state
untouched, so it is raised before any transmission is attempted; and a frame
exactly at the budget is handed to the radio for transmission. -/
theorem send_budget_amended (env : Env) (m : RoverMessage) (st : St) :
    ((send env m st).1 = .err .messageTooLong ↔
      (if env.useEncryption then (64 : Nat) else 255) < (m.serialize).length) ∧
    ((if env.useEncryption then (64 : Nat) else 255) < (m.serialize).length →
      send env m st = (.err .messageTooLong, st)) ∧
    ((m.serialize).length = (if env.useEncryption then (64 : Nat) else 255) →
      Action.transmit m.serialize ∈ (send env m st).2.trace) := by
  by_cases hlen : (if env.useEncryption then (64 : Nat) else 255) < (m.serialize).length
  · have hres : send env m st = (.err .messageTooLong, st) := by
      simp only [send, sendFn]
      rw [if_pos hlen]
    refine ⟨by simp [hres, hlen], fun _ => hres, fun hEq => absurd hEq (by omega)⟩
  · have hstep : send env m st =
        (if env.sendOk st.sendCount = false then
          (.err .linkSendError,
            St.mk st.clock st.recvCount (st.sendCount + 1)
              (st.trace ++ [Action.transmit m.serialize]))
        else
          match m with
          | .CommandMessage _ _ _ =>
            ((receiveFn env 1 (.CommandAck env.defaultTs false) ACK_TIMEOUT
                (St.mk st.clock st.recvCount (st.sendCount + 1)
                  (st.trace ++ [Action.transmit m.serialize]))).1,
             (receiveFn env 1 (.CommandAck env.defaultTs false) ACK_TIMEOUT
                (St.mk st.clock st.recvCount (st.sendCount + 1)
                  (st.trace ++ [Action.transmit m.serialize]))).2.2)
          | _ => (.ok, St.mk st.clock st.recvCount (st.sendCount + 1)
              (st.trace ++ [Action.transmit m.serialize]))) := by
      simp only [send, sendFn]
      rw [if_neg hlen]
    refine ⟨?_, fun hc => absurd hc hlen, fun _ => ?_⟩
    · rw [hstep]
      constructor
      · intro hout
        exfalso
        revert hout
        split
        · simp
        · split
          · exact fun hc => (not_tooLong 1).2 env _ ACK_TIMEOUT _ (by simpa using hc)
          · simp
      · intro hc
        exact absurd hc hlen
    · rw [hstep]
      have hmem : Action.transmit m.serialize ∈
          (St.mk st.clock st.recvCount (st.sendCount + 1)
            (st.trace ++ [Action.transmit m.serialize])).trace := by simp
      split
      · exact hmem
      · split
        · exact (trace_mem 1).2 env _ ACK_TIMEOUT _ _ hmem
        · exact hmem

set_option maxRecDepth 4000 in
/-- Claim C3, witness: a 133-byte frame is rejected with the state untouched,
and a frame of exactly 64 bytes is transmitted. -/
theorem send_budget_amended_witness :
    send envLinkErr mLong st0 = (.err .messageTooLong, st0) ∧
    Action.transmit m64.serialize ∈ (send envLinkErr m64 st0).2.trace := by
  refine ⟨(send_budget_amended envLinkErr mLong st0).2.1 (by decide),
          (send_budget_amended envLinkErr m64 st0).2.2 (by decide)⟩

/-- Claim C4, counterexample.  Sending a CommandMessage performs its one
internal receive with the overall timeout ACK_TIMEOUT = 30000 ms, not the
2000 ms the claim states: the trace holds a waitFor marker with timeout 30000
and none with timeout 2000. -/
theorem send_ack_timeout_counterexample :
    (send envLinkErr mSTOP st0).2.trace =
      [Action.transmit mSTOP.serialize,
        Action.waitFor MESSAGE_COMMAND_ACK ACK_TIMEOUT, Action.poll] ∧
    Action.waitFor MESSAGE_COMMAND_ACK 2000 ∉ (send envLinkErr mSTOP st0).2.trace ∧
    ACK_TIMEOUT = 30000 ∧ (30000 : Nat) ≠ 2000 := by
  refine ⟨by decide, by decide, by decide, by decide⟩

/-- Claim C4, amended.  A send of a CommandMessage that passes the length
check and whose transmit succeeds performs exactly one internal receive,
expecting a CommandAck, with overall timeout ACK_TIMEOUT = 30000 ms (not
2000 ms), and the result of send is verbatim the result of that inner receive,
so any failure of it propagates as the send's own failure; a send of any other
kind never performs an internal receive. -/
theorem send_command_ack_amended :
    (∀ (env : Env) (t : RoverTimestamp) (sc : Bool) (cmd : List Nat) (st : St),
      ¬ (if env.useEncryption then (64 : Nat) else 255) <
          ((RoverMessage.CommandMessage t sc cmd).serialize).length →
      env.sendOk st.sendCount = true →
      ((send env (.CommandMessage t sc cmd) st).2.trace).filter Action.isWait =
        st.trace.filter Action.isWait ++ [Action.waitFor MESSAGE_COMMAND_ACK ACK_TIMEOUT] ∧
      send env (.CommandMessage t sc cmd) st =
        ((receiveFn env 1 (.CommandAck env.defaultTs false) ACK_TIMEOUT
            (St.mk st.clock st.recvCount (st.sendCount + 1) (st.trace ++
              [Action.transmit ((RoverMessage.CommandMessage t sc cmd).serialize)]))).1,
         (receiveFn env 1 (.CommandAck env.defaultTs false) ACK_TIMEOUT
            (St.mk st.clock st.recvCount (st.sendCount + 1) (st.trace ++
              [Action.transmit ((RoverMessage.CommandMessage t sc cmd).serialize)]))).2.2)) ∧
    (∀ (env : Env) (m : RoverMessage) (st : St),
      m.get_message_id ≠ MESSAGE_COMMAND →
      ((send env m st).2.trace).filter Action.isWait = st.trace.filter Action.isWait) := by
  constructor
  · intro env t sc cmd st hlen hok
    have hstep : send env (.CommandMessage t sc cmd) st =
        ((receiveFn env 1 (.CommandAck env.defaultTs false) ACK_TIMEOUT
            (St.mk st.clock st.recvCount (st.sendCount + 1) (st.trace ++
              [Action.transmit ((RoverMessage.CommandMessage t sc cmd).serialize)]))).1,
         (receiveFn env 1 (.CommandAck env.defaultTs false) ACK_TIMEOUT
            (St.mk st.clock st.recvCount (st.sendCount + 1) (st.trace ++
              [Action.transmit ((RoverMessage.CommandMessage t sc cmd).serialize)]))).2.2) := by
      simp only [send, sendFn]
      rw [if_neg hlen, if_neg (by simp [hok])]
    refine ⟨?_, hstep⟩
    rw [hstep]
    have h1 := receiveFn_waitFilter env 0 (.CommandAck env.defaultTs false) ACK_TIMEOUT
      (St.mk st.clock st.recvCount (st.sendCount + 1) (st.trace ++
        [Action.transmit ((RoverMessage.CommandMessage t sc cmd).serialize)]))
    simp only [List.filter_append] at h1
    rw [h1]
    simp [Action.isWait, RoverMessage.get_message_id]
  · intro env m st hm
    exact sendFn_waitFilter env 2 m st hm

/-- Claim C4, witness: the STOP command send waits once for a CommandAck with
timeout 30000; a telemetry send never waits. -/
theorem send_command_ack_amended_witness :
    ((send envLinkErr mSTOP st0).2.trace).filter Action.isWait =
      (st0.trace).filter Action.isWait ++
        [Action.waitFor MESSAGE_COMMAND_ACK ACK_TIMEOUT] ∧
    ((send envLinkErr mTel st0).2.trace).filter Action.isWait =
      (st0.trace).filter Action.isWait := by
  refine ⟨(send_command_ack_amended.1 envLinkErr ⟨0, 0, 0⟩ true [83, 84, 79, 80] st0
      (by decide) (by decide)).1,
    send_command_ack_amended.2 envLinkErr mTel st0 (by decide)⟩

/-- Claim C5.  A receive whose shell expects Telemetry and whose poll loop
delivers a buffer that decodes successfully sends, after the MSG_DELAY=250 ms
settle sleep and before returning, exactly one TelemetryAck with ack true and
command_waiting false; the receive succeeds iff that auto-ack transmit
succeeds, a transmit failure propagating as the receive's own failure; and a
receive of any other expected kind never transmits anything. -/
theorem receive_telemetry_autoack :
    (∀ (env : Env) (T : Nat) (st : St) (a : RoverTimestamp) (b : RoverLocData) (c : Int)
        (d : Nat) (e : List Nat) (buf : List Nat) (st2 : St) (ts1 : RoverTimestamp)
        (loc1 : RoverLocData) (ss1 : Int) (fm1 : Nat) (stat1 : List Nat),
      recvLoop env T st.clock (T + 1) (St.mk st.clock st.recvCount st.sendCount
          (st.trace ++ [Action.waitFor MESSAGE_TELEMETRY T])) = (.gotData buf, st2) →
      RoverMessage.deserialize (.TelemetryMessage a b c d e) buf =
        some (none, .TelemetryMessage ts1 loc1 ss1 fm1 stat1) →
      receive env (.TelemetryMessage a b c d e) T st =
        ((if env.sendOk st2.sendCount then Outcome.ok else .err .linkSendError),
         .TelemetryMessage ts1 loc1 ss1 fm1 stat1,
         St.mk (st2.clock + MSG_DELAY) st2.recvCount (st2.sendCount + 1)
           (st2.trace ++ [Action.sleep MSG_DELAY] ++
            [Action.transmit ((RoverMessage.TelemetryAck env.defaultTs true false).serialize)])) ∧
      ((receive env (.TelemetryMessage a b c d e) T st).2.2.trace).filter Action.isTransmit =
        st.trace.filter Action.isTransmit ++
          [Action.transmit ((RoverMessage.TelemetryAck env.defaultTs true false).serialize)]) ∧
    (∀ (env : Env) (self : RoverMessage) (T : Nat) (st : St),
      self.get_message_id ≠ MESSAGE_TELEMETRY →
      ((receive env self T st).2.2.trace).filter Action.isTransmit =
        st.trace.filter Action.isTransmit) := by
  constructor
  · intro env T st a b c d e buf st2 ts1 loc1 ss1 fm1 stat1 hL hD
    have hflt := recvLoop_filter env T st.clock Action.isTransmit rfl (fun _ => rfl) (T + 1)
      (St.mk st.clock st.recvCount st.sendCount
        (st.trace ++ [Action.waitFor MESSAGE_TELEMETRY T]))
    rw [hL] at hflt
    have hmain : receive env (.TelemetryMessage a b c d e) T st =
        ((if env.sendOk st2.sendCount then Outcome.ok else .err .linkSendError),
         .TelemetryMessage ts1 loc1 ss1 fm1 stat1,
         St.mk (st2.clock + MSG_DELAY) st2.recvCount (st2.sendCount + 1)
           (st2.trace ++ [Action.sleep MSG_DELAY] ++
            [Action.transmit ((RoverMessage.TelemetryAck env.defaultTs true false).serialize)])) := by
      simp only [receive, receiveFn, RoverMessage.get_message_id]
      rw [hL]
      dsimp only
      rw [hD]
      dsimp only
      simp only [sendFn, len_serialize_telemetryAck, sleepSt]
      cases henc : env.useEncryption <;> cases hok : env.sendOk st2.sendCount <;>
        simp [henc, hok, List.append_assoc]
    refine ⟨hmain, ?_⟩
    rw [hmain]
    simp only [List.filter_append, hflt]
    simp [Action.isTransmit, List.filter_append]
  · intro env self T st hm
    have hflt := recvLoop_filter env T st.clock Action.isTransmit rfl (fun _ => rfl) (T + 1)
      (St.mk st.clock st.recvCount st.sendCount
        (st.trace ++ [Action.waitFor self.get_message_id T]))
    have hbase : ((St.mk st.clock st.recvCount st.sendCount (st.trace ++
        [Action.waitFor self.get_message_id T])).trace).filter Action.isTransmit =
        st.trace.filter Action.isTransmit := by
      simp [List.filter_append, Action.isTransmit]
    simp only [receive, receiveFn]
    split
    all_goals rename_i heq
    all_goals rw [heq] at hflt
    · simp only [hflt, hbase]
    · simp only [hflt, hbase]
    · simp only [hflt, hbase]
    · split
      · simp only [hflt, hbase]
      · simp only [hflt, hbase]
      · split
        · exfalso
          rename_i heqD
          have hk := deserialize_kind self _ _ _ heqD
          simp [RoverMessage.get_message_id] at hk
          exact hm (hk ▸ rfl)
        · simp only [hflt, hbase]

/-- Claim C5, witness: a concrete telemetry receive that ends with exactly one
TelemetryAck transmission after the 250 ms settle sleep. -/
theorem receive_telemetry_autoack_witness :
    receive envTelemetry shellTel 1000 st0 =
      ((if envTelemetry.sendOk st2w.sendCount then Outcome.ok else .err .linkSendError),
       mTel,
       St.mk (st2w.clock + MSG_DELAY) st2w.recvCount (st2w.sendCount + 1)
         (st2w.trace ++ [Action.sleep MSG_DELAY] ++
          [Action.transmit ((RoverMessage.TelemetryAck envTelemetry.defaultTs
            true false).serialize)])) ∧
    ((receive envTelemetry shellTel 1000 st0).2.2.trace).filter Action.isTransmit =
      (st0.trace).filter Action.isTransmit ++
        [Action.transmit ((RoverMessage.TelemetryAck envTelemetry.defaultTs
          true false).serialize)] := by
  exact receive_telemetry_autoack.1 envTelemetry 1000 st0 ⟨0, 0, 0⟩ ⟨0, 0, 0, 0, 0, 0⟩
    0 0 [] (pad64 mTel.serialize) st2w ⟨1, 2, 3⟩ ⟨10, 20, 30, 40, 7, 300⟩ (-5) 1234
    [72, 73] (by decide) (by decide)

/-- Claim C8, counterexample.  With every poll reporting the internal timeout
and each recv attempt returning instantly, receive with a 150 ms deadline
returns the timed-out error only after 300 ms of modelled wall time, because
the loop sleeps LISTEN_DELAY twice per timed-out poll; that contradicts the
claimed bound of strictly less than T plus one poll interval (250 ms). -/
theorem receive_timeout_overshoot :
    (receive envTimeout (.CommandAck ⟨0, 0, 0⟩ false) 150 st0).1 =
      .err .receiveTimedOut ∧
    (receive envTimeout (.CommandAck ⟨0, 0, 0⟩ false) 150 st0).2.2.clock = 300 ∧
    ¬ (300 : Nat) < 150 + LISTEN_DELAY := by
  refine ⟨by decide, by decide, by decide⟩

/-- Claim C8, amended.  If every poll reports the link's internal timeout,
receive treats each as keep-waiting and ends with the receive-timed-out error,
with total elapsed time strictly greater than the deadline T and at most
T plus one recv attempt (bounded by D) plus two poll delays — not within one
poll interval as claimed, since the loop sleeps LISTEN_DELAY twice per
timed-out poll; and a non-timeout link error aborts the polling immediately
(one poll, no sleep, no retry), surfacing as the receive's link error. -/
theorem receive_timeout_amended :
    (∀ (env : Env) (self : RoverMessage) (T D : Nat) (st : St),
      (∀ k, env.recvResult k = .timeout) → (∀ k, env.recvDur k ≤ D) →
      ∃ st2, receive env self T st = (.err .receiveTimedOut, self, st2) ∧
        T < st2.clock - st.clock ∧
        st2.clock - st.clock ≤ T + D + 2 * LISTEN_DELAY) ∧
    (∀ (env : Env) (T start fuel : Nat) (st : St),
      env.recvResult st.recvCount = .linkErr →
      recvLoop env T start (fuel + 1) st =
        (.linkError, St.mk (st.clock + env.recvDur st.recvCount) (st.recvCount + 1)
          st.sendCount (st.trace ++ [Action.poll]))) ∧
    (∀ (env : Env) (self : RoverMessage) (T : Nat) (st : St),
      env.recvResult st.recvCount = .linkErr →
      (receive env self T st).1 = .err .linkRecvError) := by
  refine ⟨?_, recvLoop_linkErr, ?_⟩
  · intro env self T D st htm hdur
    obtain ⟨st2, hL, hlow, hhigh⟩ := recvLoop_all_timeout env T D htm hdur T st.clock
      (St.mk st.clock st.recvCount st.sendCount
        (st.trace ++ [Action.waitFor self.get_message_id T]))
      (by simp) (by simp) (by dsimp only; omega)
    refine ⟨st2, ?_, by simpa using hlow, by simpa using hhigh⟩
    simp only [receive, receiveFn]
    rw [hL]
  · intro env self T st h
    simp only [receive, receiveFn]
    rw [recvLoop_linkErr env T st.clock T
      (St.mk st.clock st.recvCount st.sendCount
        (st.trace ++ [Action.waitFor self.get_message_id T])) h]

/-- Claim C8, witness: the all-timeout environment at T = 150, D = 0 ends in
the receive-timed-out error with 150 < elapsed ≤ 350. -/
theorem receive_timeout_amended_witness :
    ∃ st2, receive envTimeout (.CommandAck ⟨0, 0, 0⟩ false) 150 st0 =
        (.err .receiveTimedOut, .CommandAck ⟨0, 0, 0⟩ false, st2) ∧
      150 < st2.clock - st0.clock ∧
      st2.clock - st0.clock ≤ 150 + 0 + 2 * LISTEN_DELAY := by
  exact receive_timeout_amended.1 envTimeout (.CommandAck ⟨0, 0, 0⟩ false) 150 0 st0
    (fun _ => rfl) (fun _ => Nat.le_refl 0)

/-- Claim C10.  For every expected-kind shell and every 64-byte buffer of
bytes, deserialize is total: it returns some result — either the
wrong-message-kind error or the filled message — and never panics; every
fixed-offset read lies within the 64-byte buffer and string decoding never
hits the invalid-character panic because every byte value below 256 is a
valid Unicode scalar value. -/
theorem deserialize_total (self : RoverMessage) (buf : List Nat)
    (hlen : buf.length = 64) (hbytes : ∀ b ∈ buf, b < 256) :
    ∃ out, self.deserialize buf = some out := by
  obtain ⟨b5, h5⟩ := get_total buf 5 (by omega)
  have hdropbytes : ∀ (k : Nat) (b : Nat), b ∈ buf.drop k → b < 55296 :=
    fun k b hb => lt_trans (hbytes b (List.drop_subset k buf hb)) (by norm_num)
  have hslice : ∀ a b : Nat, a ≤ b → b ≤ 64 →
      sliceRange buf a b = some ((buf.drop a).take (b - a)) := by
    intro a b hab hb
    simp [sliceRange, hlen, hab, hb]
  have hslicelen : ∀ a b : Nat, b ≤ 64 → ((buf.drop a).take (b - a)).length = b - a := by
    intro a b hb
    simp [hlen]
    omega
  have hsf32 : sliceFrom buf 32 = some (buf.drop 32) := by simp [sliceFrom, hlen]
  have hsf29 : sliceFrom buf 29 = some (buf.drop 29) := by simp [sliceFrom, hlen]
  obtain ⟨t1, ht1⟩ := ts_deser_total ((buf.drop 6).take 3)
    (by rw [show (3 : Nat) = 9 - 6 from rfl, hslicelen 6 9 (by omega)])
  cases self with
  | TelemetryMessage ts loc ss fm status =>
    rcases eq_or_ne b5 MESSAGE_TELEMETRY with htag | htag
    · obtain ⟨l1, hl1⟩ := loc_deser_total ((buf.drop 9).take 19)
        (by rw [show (19 : Nat) = 28 - 9 from rfl, hslicelen 9 28 (by omega)])
      obtain ⟨i1, hi1⟩ := i16_deser_total ((buf.drop 28).take 2)
        (by rw [show (2 : Nat) = 30 - 28 from rfl, hslicelen 28 30 (by omega)])
      obtain ⟨u1, hu1⟩ := u16_deser_total ((buf.drop 30).take 2)
        (by rw [show (2 : Nat) = 32 - 30 from rfl, hslicelen 30 32 (by omega)])
      obtain ⟨r1, hr1⟩ := string_deser_total (buf.drop 32) status (hdropbytes 32)
      subst htag
      refine ⟨(none, .TelemetryMessage t1 l1 i1 u1 r1), ?_⟩
      simp only [RoverMessage.deserialize, Option.bind_eq_bind, h5, Option.some_bind]
      rw [if_neg (not_not_intro rfl)]
      simp only [hslice 6 9 (by omega) (by omega), hslice 9 28 (by omega) (by omega),
        hslice 28 30 (by omega) (by omega), hslice 30 32 (by omega) (by omega), hsf32,
        Option.some_bind, ht1, hl1, hi1, hu1, hr1, Option.pure_def]
    · refine ⟨(some (.wrongKind (getMessageType MESSAGE_TELEMETRY) (getMessageType b5)),
        .TelemetryMessage ts loc ss fm status), ?_⟩
      simp only [RoverMessage.deserialize, Option.bind_eq_bind, h5, Option.some_bind]
      rw [if_pos htag]
      rfl
  | TelemetryAck ts a c =>
    rcases eq_or_ne b5 MESSAGE_TELEMETRY_ACK with htag | htag
    · obtain ⟨b9, h9⟩ := get_total buf 9 (by omega)
      obtain ⟨b10, h10⟩ := get_total buf 10 (by omega)
      subst htag
      refine ⟨(none, .TelemetryAck t1 (RoverMessage.deserialize_bool b9)
        (RoverMessage.deserialize_bool b10)), ?_⟩
      simp only [RoverMessage.deserialize, Option.bind_eq_bind, h5, Option.some_bind]
      rw [if_neg (not_not_intro rfl)]
      simp only [hslice 6 9 (by omega) (by omega), Option.some_bind, ht1, h9, h10,
        Option.pure_def]
    · refine ⟨(some (.wrongKind (getMessageType MESSAGE_TELEMETRY_ACK) (getMessageType b5)),
        .TelemetryAck ts a c), ?_⟩
      simp only [RoverMessage.deserialize, Option.bind_eq_bind, h5, Option.some_bind]
      rw [if_pos htag]
      rfl
  | CommandReady ts r =>
    rcases eq_or_ne b5 MESSAGE_COMMAND_READY with htag | htag
    · obtain ⟨b9, h9⟩ := get_total buf 9 (by omega)
      subst htag
      refine ⟨(none, .CommandReady t1 (RoverMessage.deserialize_bool b9)), ?_⟩
      simp only [RoverMessage.deserialize, Option.bind_eq_bind, h5, Option.some_bind]
      rw [if_neg (not_not_intro rfl)]
      simp only [hslice 6 9 (by omega) (by omega), Option.some_bind, ht1, h9, Option.pure_def]
    · refine ⟨(some (.wrongKind (getMessageType MESSAGE_COMMAND_READY) (getMessageType b5)),
        .CommandReady ts r), ?_⟩
      simp only [RoverMessage.deserialize, Option.bind_eq_bind, h5, Option.some_bind]
      rw [if_pos htag]
      rfl
  | CommandMessage ts sc cmd =>
    rcases eq_or_ne b5 MESSAGE_COMMAND with htag | htag
    · obtain ⟨b9, h9⟩ := get_total buf 9 (by omega)
      obtain ⟨r1, hr1⟩ := string_deser_total (buf.drop 29) cmd (hdropbytes 29)
      subst htag
      refine ⟨(none, .CommandMessage t1 (RoverMessage.deserialize_bool b9) r1), ?_⟩
      simp only [RoverMessage.deserialize, Option.bind_eq_bind, h5, Option.some_bind]
      rw [if_neg (not_not_intro rfl)]
      simp only [hslice 6 9 (by omega) (by omega), Option.some_bind, ht1, h9, hsf29, hr1,
        Option.pure_def]
    · refine ⟨(some (.wrongKind (getMessageType MESSAGE_COMMAND) (getMessageType b5)),
        .CommandMessage ts sc cmd), ?_⟩
      simp only [RoverMessage.deserialize, Option.bind_eq_bind, h5, Option.some_bind]
      rw [if_pos htag]
      rfl
  | CommandAck ts a =>
    rcases eq_or_ne b5 MESSAGE_COMMAND_ACK with htag | htag
    · obtain ⟨b9, h9⟩ := get_total buf 9 (by omega)
      subst htag
      refine ⟨(none, .CommandAck t1 (RoverMessage.deserialize_bool b9)), ?_⟩
      simp only [RoverMessage.deserialize, Option.bind_eq_bind, h5, Option.some_bind]
      rw [if_neg (not_not_intro rfl)]
      simp only [hslice 6 9 (by omega) (by omega), Option.some_bind, ht1, h9, Option.pure_def]
    · refine ⟨(some (.wrongKind (getMessageType MESSAGE_COMMAND_ACK) (getMessageType b5)),
        .CommandAck ts a), ?_⟩
      simp only [RoverMessage.deserialize, Option.bind_eq_bind, h5, Option.some_bind]
      rw [if_pos htag]
      rfl

/-- Claim C10, witness: decoding the all-zero 64-byte buffer into a telemetry
shell returns a result (here: a successful decode). -/
theorem deserialize_total_witness :
    ∃ out, RoverMessage.deserialize shellTel (List.replicate 64 0) = some out := by
  exact deserialize_total shellTel (List.replicate 64 0) (by decide) (by decide)

end GroundControl
